import Mathlib

/-!
Shallow embedding of the enrollment core of the `inclusive_world_portal`
Django application: the data model (`portal/models.py`), the counter
signals (`portal/signals.py`), the checkout / selection views, the staff
enrollment-status handlers and the buddy-assignment handlers
(`portal/views.py`), and the eligibility gate (`users/models.py`).

Database rows are modelled as structures over `Nat` identifiers, tables as
lists of rows, and each HTTP handler as a function from a database state
(plus the request parameters) to a new database state together with an
`Except`-style response.  Django ORM calls are translated operation by
operation: `objects.filter(...).update(...)` with an `F`-expression becomes
a list `map` guarded on the filtered key, `update_or_create` becomes a
lookup followed by either an in-place row rewrite or an append, and the
`post_save` / `post_delete` signal receivers are invoked exactly where the
ORM would fire them.
-/

namespace IWPortal

/-- Enrollment lifecycle states, from `EnrollmentStatus` in `portal/models.py`. -/
inductive EStatus where
  | pending
  | approved
  | waitlisted
  | rejected
  | withdrawn
deriving DecidableEq, Repr

/-- Database string value of each status, as stored in the `status` column. -/
def EStatus.toStr : EStatus → String
  | .pending => "pending"
  | .approved => "approved"
  | .waitlisted => "waitlisted"
  | .rejected => "rejected"
  | .withdrawn => "withdrawn"

/-- Translation of the `new_status in valid_statuses` check of the views:
returns the parsed status when the string is one of the five valid choice
values, and `none` otherwise. -/
def parseStatus (s : String) : Option EStatus :=
  if s = "pending" then some .pending
  else if s = "approved" then some .approved
  else if s = "waitlisted" then some .waitlisted
  else if s = "rejected" then some .rejected
  else if s = "withdrawn" then some .withdrawn
  else none

/-- User roles, from `User.Role` in `users/models.py`. -/
inductive Role where
  | member
  | volunteer
  | person_centered_manager
  | manager
deriving DecidableEq, Repr

/-- A row of the custom user table (the fields the enrollment core reads). -/
structure UserRow where
  id : Nat
  role : Role
deriving DecidableEq, Repr

/-- A row of the `Program` table (the fields the enrollment core reads). -/
structure ProgramRow where
  programId : Nat
  capacity : Nat
  archived : Bool
  enrolled : Nat
deriving DecidableEq, Repr

/-- A row of the `Enrollment` table (the fields the enrollment core reads). -/
structure EnrollmentRow where
  enrollmentId : Nat
  userId : Nat
  programId : Nat
  status : EStatus
  preferenceOrder : Option Int
  assignedBy : Option Nat
deriving DecidableEq, Repr

/-- A row of the `BuddyAssignment` table: unique key (program, member_user)
mapping to one volunteer_user. -/
structure BuddyRow where
  programId : Nat
  memberUserId : Nat
  volunteerUserId : Nat
deriving DecidableEq, Repr

/-- The persisted state the enrollment core reads and writes. -/
structure Db where
  users : List UserRow
  programs : List ProgramRow
  enrollments : List EnrollmentRow
  buddies : List BuddyRow
deriving DecidableEq, Repr

/-- Lookup `User.objects.get(id=uid)`. -/
def findUser (db : Db) (uid : Nat) : Option UserRow :=
  db.users.find? (fun u => u.id = uid)

/-- Lookup `Program.objects.get(program_id=pid)`. -/
def findProgram (db : Db) (pid : Nat) : Option ProgramRow :=
  db.programs.find? (fun p => p.programId = pid)

/-- Lookup `get_object_or_404(Program, program_id=pid, archived=False)`:
`none` models the `Http404` raised when the program is missing or archived. -/
def findActiveProgram (db : Db) (pid : Nat) : Option ProgramRow :=
  db.programs.find? (fun p => p.programId = pid ∧ p.archived = false)

/-- Lookup `get_object_or_404(Enrollment, enrollment_id=eid)`. -/
def findEnrollment (db : Db) (eid : Nat) : Option EnrollmentRow :=
  db.enrollments.find? (fun e => e.enrollmentId = eid)

/-- Lookup of the unique (user, program) enrollment row, as consulted by
`Enrollment.objects.update_or_create(user=..., program=...)`. -/
def findEnrollmentFor (db : Db) (uid pid : Nat) : Option EnrollmentRow :=
  db.enrollments.find? (fun e => e.userId = uid ∧ e.programId = pid)

/-- Number of Enrollment rows of program `pid` whose status is `approved`:
the quantity the spec says the `enrolled` counter must track. -/
def approvedCount (db : Db) (pid : Nat) : Nat :=
  (db.enrollments.filter (fun e => e.programId = pid ∧ e.status = .approved)).length

/-- Update every program row with key `pid` by `f`, leaving other rows
unchanged: the shape of `Program.objects.filter(pk=pid).update(...)` and of
saving a fetched program row back by primary key. -/
def mapProgram (db : Db) (pid : Nat) (f : ProgramRow → ProgramRow) : Db :=
  { db with programs := db.programs.map (fun p => if p.programId = pid then f p else p) }

/-- Rewrite the enrollment row with key `eid` to `e`, leaving other rows
unchanged: saving a fetched enrollment back by primary key. -/
def writeEnrollment (db : Db) (eid : Nat) (e : EnrollmentRow) : Db :=
  { db with enrollments := db.enrollments.map (fun x => if x.enrollmentId = eid then e else x) }

/-- Translation of `Program.objects.filter(pk=pid).update(enrolled=F("enrolled") + 1)`
in the signal `bump_enrollment_on_create`. -/
def bumpEnrolled (db : Db) (pid : Nat) : Db :=
  mapProgram db pid (fun p => { p with enrolled := p.enrolled + 1 })

/-- Translation of
`Program.objects.filter(pk=pid, enrolled__gt=0).update(enrolled=F("enrolled") - 1)`
in the signal `lower_enrollment_on_delete`: rows with `enrolled = 0` do not
match the filter and stay untouched. -/
def lowerEnrolledIfPos (db : Db) (pid : Nat) : Db :=
  mapProgram db pid (fun p => if 0 < p.enrolled then { p with enrolled := p.enrolled - 1 } else p)

/-- The `post_save` receiver `bump_enrollment_on_create` of
`portal/signals.py`: on a freshly created row whose status is `approved`,
issue the atomic increment; on any other save, do nothing. -/
def postSaveEnrollment (db : Db) (e : EnrollmentRow) (created : Bool) : Db :=
  if created ∧ e.status = .approved then bumpEnrolled db e.programId else db

/-- The `post_delete` receiver `lower_enrollment_on_delete` of
`portal/signals.py`: every deletion issues the clamped decrement, whatever
the deleted row status. -/
def postDeleteEnrollment (db : Db) (e : EnrollmentRow) : Db :=
  lowerEnrolledIfPos db e.programId

/-- Administrative deletion of an enrollment row (`Enrollment.delete()`),
followed by the `post_delete` signal. -/
def deleteEnrollmentRow (db : Db) (eid : Nat) : Db :=
  match findEnrollment db eid with
  | none => db
  | some e =>
      postDeleteEnrollment
        { db with enrollments := db.enrollments.filter (fun x => ¬ x.enrollmentId = eid) } e

/-- Decidable equality of handler responses, so that concrete runs of the
embedded operations can be checked by evaluation. -/
instance exceptDecEq {ε α : Type} [DecidableEq ε] [DecidableEq α] :
    DecidableEq (Except ε α) := fun x y =>
  match x, y with
  | .error a, .error b =>
      if h : a = b then .isTrue (by rw [h]) else .isFalse (fun hc => by cases hc; exact h rfl)
  | .error _, .ok _ => .isFalse (fun hc => by cases hc)
  | .ok _, .error _ => .isFalse (fun hc => by cases hc)
  | .ok a, .ok b =>
      if h : a = b then .isTrue (by rw [h]) else .isFalse (fun hc => by cases hc; exact h rfl)

/-- One entry of the session-stored ranked selection: a program id plus the
rank the user gave it. -/
structure Selection where
  programId : Nat
  rank : Int
deriving DecidableEq, Repr

/-- Translation of the
`Enrollment.objects.update_or_create(user=..., program=..., defaults={status: pending, preference_order: rank})`
call shared by `process_enrollment` and `volunteer_program_selection_view`,
including the `post_save` signal the save fires.  `freshId` is the primary
key the database would assign to a newly inserted row.  Returns the new
state, the saved row and the `created` flag. -/
def updateOrCreateEnrollment (db : Db) (uid pid : Nat) (rank : Int) (freshId : Nat) :
    Db × EnrollmentRow × Bool :=
  match findEnrollmentFor db uid pid with
  | some e =>
      let e' := { e with status := .pending, preferenceOrder := some rank }
      let db' := writeEnrollment db e.enrollmentId e'
      (postSaveEnrollment db' e' false, e', false)
  | none =>
      let e' : EnrollmentRow :=
        { enrollmentId := freshId, userId := uid, programId := pid,
          status := .pending, preferenceOrder := some rank, assignedBy := none }
      let db' := { db with enrollments := db.enrollments ++ [e'] }
      (postSaveEnrollment db' e' true, e', true)

/-- The per-selection loop shared by `process_enrollment` and the volunteer
selection view: for each selection, `get_object_or_404(Program,
program_id=..., archived=False)` then `update_or_create`.  When the lookup
raises (program missing or archived) the loop stops with an error, but every
row written by earlier iterations remains in the returned state — there is
no enclosing transaction in the source.  Fresh primary keys are drawn from
`freshId` upwards.  The `Nat` result counts the enrollments created or
updated. -/
def processSelections (db : Db) (uid freshId : Nat) :
    List Selection → Db × Except String Nat
  | [] => (db, .ok 0)
  | s :: rest =>
      match findActiveProgram db s.programId with
      | none => (db, .error "No Program matches the given query.")
      | some p =>
          let (db', _, _) := updateOrCreateEnrollment db uid p.programId s.rank freshId
          match processSelections db' uid (freshId + 1) rest with
          | (db'', .ok n) => (db'', .ok (n + 1))
          | (db'', .error m) => (db'', .error m)

/-- Translation of the enrollment-creating part of `process_enrollment`
(`portal/views.py`), entered after the Stripe payment-intent check has
succeeded: read the session selections, reject if empty, then run the
per-selection loop. -/
def process_enrollment (db : Db) (uid freshId : Nat) (selections : List Selection) :
    Db × Except String Nat :=
  if selections = [] then (db, .error "No selections found")
  else processSelections db uid freshId selections

/-- Translation of the POST branch of `volunteer_program_selection_view`
(`portal/views.py`): reject an empty selection; re-validate availability by
comparing the number of non-archived matching programs against the number of
selected ids; on mismatch reject the whole batch with a generic message
before any row is written; otherwise run the same per-selection loop. -/
def volunteer_selection_confirm (db : Db) (uid freshId : Nat)
    (selections : List Selection) : Db × Except String Nat :=
  if selections = [] then (db, .error "Please select at least one program.")
  else
    let ids := selections.map (fun s => s.programId)
    let available := db.programs.filter (fun p => p.programId ∈ ids ∧ p.archived = false)
    if available.length ≠ ids.length then
      (db, .error "Some selected programs are no longer available.")
    else processSelections db uid freshId selections

/-- Translation of the AJAX endpoint `ajax_update_enrollment_status`
(`portal/views.py`): manager-only; any of the five valid status strings is
accepted whatever the previous status; the enrollment row is rewritten with
the new status and staff attribution; then the program counter is adjusted
by comparing previous vs. new status — `enrolled += 1` on entering
`approved`, `enrolled = max(0, enrolled - 1)` on leaving it, untouched
otherwise.  (The counter write is a read-then-write on the fetched program
object in the source; sequentially that equals the keyed rewrite used here —
the interleaved behaviour is modelled separately by `CounterOp`.) -/
def ajax_update_enrollment_status (db : Db) (actor : UserRow) (eid : Nat)
    (newStatusStr : String) : Db × Except String String :=
  if actor.role ≠ .manager then (db, .error "Permission denied")
  else
    match findEnrollment db eid with
    | none => (db, .error "No Enrollment matches the given query.")
    | some e =>
        match parseStatus newStatusStr with
        | none => (db, .error "Invalid status")
        | some newStatus =>
            let oldStatus := e.status
            let e' := { e with status := newStatus, assignedBy := some actor.id }
            let db1 := writeEnrollment db eid e'
            let db2 :=
              if oldStatus ≠ .approved ∧ newStatus = .approved then
                mapProgram db1 e.programId (fun p => { p with enrolled := p.enrolled + 1 })
              else if oldStatus = .approved ∧ newStatus ≠ .approved then
                mapProgram db1 e.programId
                  (fun p => { p with enrolled := (max 0 ((p.enrolled : Int) - 1)).toNat })
              else db1
            (db2, .ok newStatusStr)

/-- Does `volunteer` currently hold an `approved` enrollment in `pid`?  The
check `Enrollment.objects.filter(program=..., user=..., status=APPROVED).first()`
of `ajax_update_buddy_assignment`. -/
def hasApprovedEnrollment (db : Db) (uid pid : Nat) : Bool :=
  db.enrollments.any (fun e => e.programId = pid ∧ e.userId = uid ∧ e.status = .approved)

/-- Translation of `BuddyAssignment.objects.filter(program=..., member_user=...).delete()`. -/
def deleteBuddy (db : Db) (pid mid : Nat) : Db :=
  { db with buddies := db.buddies.filter (fun b => ¬ (b.programId = pid ∧ b.memberUserId = mid)) }

/-- Translation of
`BuddyAssignment.objects.update_or_create(program=..., member_user=..., defaults={volunteer_user: vid})`:
rewrite the unique (program, member) row when it exists, insert it
otherwise. -/
def upsertBuddy (db : Db) (pid mid vid : Nat) : Db :=
  match db.buddies.find? (fun b => b.programId = pid ∧ b.memberUserId = mid) with
  | some _ =>
      let rewrite := fun (b : BuddyRow) =>
        if b.programId = pid ∧ b.memberUserId = mid then { b with volunteerUserId := vid } else b
      { db with buddies := db.buddies.map rewrite }
  | none => { db with buddies := db.buddies ++ [⟨pid, mid, vid⟩] }

/-- Translation of the AJAX endpoint `ajax_update_buddy_assignment`
(`portal/views.py`): manager-only; resolves the enrollment naming the member
and program; rejects when the user is not a member; an absent volunteer id
removes the mapping; otherwise the volunteer must hold an approved
enrollment in the program or the request is rejected with no row written. -/
def ajax_update_buddy_assignment (db : Db) (actor : UserRow) (eid : Nat)
    (volunteerId : Option Nat) : Db × Except String String :=
  if actor.role ≠ .manager then (db, .error "Permission denied")
  else
    match findEnrollment db eid with
    | none => (db, .error "No Enrollment matches the given query.")
    | some e =>
        match findUser db e.userId with
        | none => (db, .error "No User matches the given query.")
        | some member =>
            if member.role ≠ .member then
              (db, .error "Buddy assignments are only for members")
            else
              match volunteerId with
              | none => (deleteBuddy db e.programId member.id, .ok "Buddy assignment removed")
              | some vid =>
                  match findUser db vid with
                  | none => (db, .error "No User matches the given query.")
                  | some volunteer =>
                      if hasApprovedEnrollment db volunteer.id e.programId then
                        (upsertBuddy db e.programId member.id volunteer.id,
                         .ok "Buddy assignment updated")
                      else
                        (db, .error "Selected volunteer is not enrolled in this program")

/-- Translation of the `assign_buddy` POST action inside `all_members_view`
(`portal/views.py`, manager-only POST branch): resolves the enrollment, then
either removes the (program, member) mapping or writes the chosen volunteer
into it — with no check of the member role and no check that the volunteer
holds an approved enrollment in the program. -/
def all_members_assign_buddy (db : Db) (actor : UserRow) (eid : Nat)
    (volunteerId : Option Nat) : Db × Except String String :=
  if actor.role ≠ .manager then (db, .error "Permission denied")
  else
    match findEnrollment db eid with
    | none => (db, .error "No Enrollment matches the given query.")
    | some e =>
        match volunteerId with
        | none => (deleteBuddy db e.programId e.userId, .ok "Removed buddy assignment")
        | some vid =>
            match findUser db vid with
            | none => (db, .error "No User matches the given query.")
            | some volunteer =>
                (upsertBuddy db e.programId e.userId volunteer.id, .ok "Assigned buddy")

/-- Primitive persistence-layer operations a handler can issue against one
`enrolled` counter of one program.  `dbIncr` and `dbDecrIfPos` are the single
SQL statements produced by the `F`-expression updates of
`portal/signals.py`; `readCounter` models fetching the program row into
application memory (`program = enrollment.program`), and the two `write*`
operations model `program.save()` writing back a value computed in
application memory from the previously read copy (`program.enrolled += 1`
resp. `program.enrolled = max(0, program.enrolled - 1)`). -/
inductive CounterOp where
  | dbIncr
  | dbDecrIfPos
  | readCounter
  | writeReadPlusOne
  | writeReadMinusOneClamped
deriving DecidableEq, Repr

/-- Effect of one primitive operation on the shared counter `c` and the
application-memory copy of the issuing thread: `reg`. -/
def CounterOp.exec (c reg : Nat) : CounterOp → Nat × Nat
  | .dbIncr => (c + 1, reg)
  | .dbDecrIfPos => (if 0 < c then c - 1 else c, reg)
  | .readCounter => (c, c)
  | .writeReadPlusOne => (reg + 1, reg)
  | .writeReadMinusOneClamped => ((max 0 ((reg : Int) - 1)).toNat, reg)

/-- Interleaved execution of two threads of counter operations under a
schedule: `true` steps thread 1, `false` steps thread 2; a step of an
exhausted thread is a no-op.  Returns the final counter, both registers and
the unexecuted tails. -/
def runSched (c r1 r2 : Nat) (ops1 ops2 : List CounterOp) :
    List Bool → Nat × Nat × Nat × List CounterOp × List CounterOp
  | [] => (c, r1, r2, ops1, ops2)
  | b :: rest =>
      if b then
        match ops1 with
        | [] => runSched c r1 r2 [] ops2 rest
        | o :: t => let (c', r1') := o.exec c r1; runSched c' r1' r2 t ops2 rest
      else
        match ops2 with
        | [] => runSched c r1 r2 ops1 [] rest
        | o :: t => let (c', r2') := o.exec c r2; runSched c' r1 r2' ops1 t rest

/-- A schedule is complete for a pair of threads starting at counter `c`
when both op lists have been fully executed at its end. -/
def completes (c : Nat) (ops1 ops2 : List CounterOp) (sched : List Bool) : Prop :=
  (runSched c 0 0 ops1 ops2 sched).2.2.2 = ([], [])

instance (c : Nat) (ops1 ops2 : List CounterOp) (sched : List Bool) :
    Decidable (completes c ops1 ops2 sched) := by
  unfold completes; infer_instance

/-- Final counter value of an interleaved execution. -/
def finalCounter (c : Nat) (ops1 ops2 : List CounterOp) (sched : List Bool) : Nat :=
  (runSched c 0 0 ops1 ops2 sched).1

/-- Counter operations issued by one run of the `+1` branch of
`ajax_update_enrollment_status` / `all_members_view`: fetch the program row,
then save back the incremented in-memory value. -/
def transitionIncrOps : List CounterOp := [.readCounter, .writeReadPlusOne]

/-- Counter operations issued by one run of the `−1` branch of the same
handlers: fetch, then save back `max(0, enrolled - 1)`. -/
def transitionDecrOps : List CounterOp := [.readCounter, .writeReadMinusOneClamped]

/-- Counter operations issued by the `bump_enrollment_on_create` signal:
one atomic `F`-expression increment. -/
def createSignalOps : List CounterOp := [.dbIncr]

/-- Counter operations issued by the `lower_enrollment_on_delete` signal:
one atomic guarded `F`-expression decrement. -/
def deleteSignalOps : List CounterOp := [.dbDecrIfPos]

/-- Modelled from the spec: the singleton `EnrollmentSettings` record
(`portal/models.py` class referenced by the views and by
`EnrollmentSettings.get_settings()` but absent from the source snapshot):
a global open/closed toggle plus an optional closure reason. -/
structure EnrollmentSettingsRec where
  enrollmentOpen : Bool
  closureReason : Option String
deriving DecidableEq, Repr

/-- Modelled from the spec: a `RoleRequirement` row — one per role, holding
required completed-survey references, a profile-completion flag and an
active switch (spec section 3; the requirement lookup behind
`enrollment_requirements_status` is called from `users/navigation.py` and
`users/dashboard_views.py` but its definition is absent from the source
snapshot). -/
structure RoleRequirementRow where
  role : Role
  requiresProfileCompletion : Bool
  requiredSurveys : List Nat
  active : Bool
deriving DecidableEq, Repr

/-- The per-user facts the eligibility gate reads: role, profile
completeness, and the set of surveys the user has completed. -/
structure EligibilityInput where
  role : Role
  profileComplete : Bool
  completedSurveys : List Nat
deriving DecidableEq, Repr

/-- Modelled from the spec: `EligibilityGate.evaluate` (spec section 4.1) —
(a) closed toggle: disallowed with the closure reason as the single missing
item; (b) no `RoleRequirement` for the role, or an inactive one: allowed
with no missing items; (c) otherwise profile first, then each missing
required survey, in requirement order. -/
def eligibilityEvaluate (settings : EnrollmentSettingsRec)
    (reqs : List RoleRequirementRow) (u : EligibilityInput) : Bool × List String :=
  if settings.enrollmentOpen = false then
    (false, [settings.closureReason.getD "Registration is currently closed."])
  else
    match reqs.find? (fun r => r.role = u.role) with
    | none => (true, [])
    | some r =>
        if r.active = false then (true, [])
        else
          let profileMissing :=
            if r.requiresProfileCompletion ∧ u.profileComplete = false
            then ["complete your profile"] else []
          let surveysMissing :=
            (r.requiredSurveys.filter (fun s => ¬ s ∈ u.completedSurveys)).map
              (fun s => "complete survey " ++ toString s)
          let missing := profileMissing ++ surveysMissing
          (missing.isEmpty, missing)

/-- A manager row used by the concrete scenarios below. -/
def mgrUser : UserRow := ⟨1, .manager⟩

/-- State for the invalid-transition scenario: program 5 with counter 0 and
a withdrawn enrollment (id 10) of volunteer 2. -/
def dbWithdrawn : Db :=
  { users := [⟨1, .manager⟩, ⟨2, .volunteer⟩, ⟨3, .member⟩],
    programs := [⟨5, 10, false, 0⟩],
    enrollments := [⟨10, 2, 5, .withdrawn, none, none⟩],
    buddies := [] }

/-- State for the checkout scenario: member 3, program 1 active, program 2
archived, no enrollments yet. -/
def dbCheckout : Db :=
  { users := [⟨3, .member⟩],
    programs := [⟨1, 10, false, 0⟩, ⟨2, 10, true, 0⟩],
    enrollments := [],
    buddies := [] }

/-- Start state for the counter-drift scenario: members 3 and 4, empty
program 5. -/
def dbDrift0 : Db :=
  { users := [⟨1, .manager⟩, ⟨3, .member⟩, ⟨4, .member⟩],
    programs := [⟨5, 10, false, 0⟩],
    enrollments := [],
    buddies := [] }

/-- Member 3 checks out program 5 (enrollment id 100, pending). -/
def dbDrift1 : Db := (process_enrollment dbDrift0 3 100 [⟨5, 1⟩]).1

/-- Member 4 checks out program 5 (enrollment id 101, pending). -/
def dbDrift2 : Db := (process_enrollment dbDrift1 4 101 [⟨5, 1⟩]).1

/-- Staff approves the enrollment of member 3: counter becomes 1. -/
def dbDrift3 : Db := (ajax_update_enrollment_status dbDrift2 mgrUser 100 "approved").1

/-- Staff deletes the still-pending enrollment of member 4. -/
def dbDrift4 : Db := deleteEnrollmentRow dbDrift3 101

/-- State for the buddy scenarios: manager 1, volunteer 2 with an approved
enrollment (id 10) in program 5, member 3 buddied with volunteer 2. -/
def dbBuddy : Db :=
  { users := [⟨1, .manager⟩, ⟨2, .volunteer⟩, ⟨3, .member⟩],
    programs := [⟨5, 10, false, 1⟩],
    enrollments := [⟨10, 2, 5, .approved, none, none⟩],
    buddies := [⟨5, 3, 2⟩] }

/-- State for the buddy-validation scenarios: member 3 enrolled (pending,
id 10) and volunteer 2 enrolled but only pending (id 11) in program 5; no
buddy rows. -/
def dbBuddyPending : Db :=
  { users := [⟨1, .manager⟩, ⟨2, .volunteer⟩, ⟨3, .member⟩],
    programs := [⟨5, 10, false, 0⟩],
    enrollments := [⟨10, 3, 5, .pending, none, none⟩, ⟨11, 2, 5, .pending, none, none⟩],
    buddies := [] }

/-- State for the re-checkout scenario: member 3 already approved in
program 5 (enrollment 10, rank 1), counter 1. -/
def dbRecheckout : Db :=
  { users := [⟨3, .member⟩],
    programs := [⟨5, 10, false, 1⟩],
    enrollments := [⟨10, 3, 5, .approved, some 1, none⟩],
    buddies := [] }

/-- State for the deletion scenario: one waitlisted enrollment, counter 0. -/
def dbDeleteZero : Db :=
  { users := [⟨3, .member⟩],
    programs := [⟨5, 10, false, 0⟩],
    enrollments := [⟨10, 3, 5, .waitlisted, none, none⟩],
    buddies := [] }

/-! Helper lemmas about the keyed list updates used by the embedding. -/

theorem find?_map_if_eq {α : Type} (key : α → Nat) (k : Nat) (f : α → α)
    (hf : ∀ x, key x = k → key (f x) = k) (l : List α) :
    (l.map (fun x => if key x = k then f x else x)).find? (fun x => key x = k)
      = (l.find? (fun x => key x = k)).map f := by
  induction l with
  | nil => rfl
  | cons a t ih =>
      by_cases h : key a = k
      · rw [List.map_cons, if_pos h, List.find?_cons_of_pos _ (by simp [hf a h]),
          List.find?_cons_of_pos _ (by simp [h])]
        rfl
      · rw [List.map_cons, if_neg h, List.find?_cons_of_neg _ (by simp [h]),
          List.find?_cons_of_neg _ (by simp [h]), ih]

theorem find?_key_of_mem_nodup {α : Type} (key : α → Nat) (l : List α) (e : α)
    (hnd : (l.map key).Nodup) (hmem : e ∈ l) :
    l.find? (fun x => key x = key e) = some e := by
  induction l with
  | nil => cases hmem
  | cons a t ih =>
      rw [List.map_cons, List.nodup_cons] at hnd
      rcases List.mem_cons.mp hmem with rfl | hmem
      · exact List.find?_cons_of_pos _ (by simp)
      · have hne : ¬ key a = key e := by
          intro hcontra
          exact hnd.1 (hcontra ▸ List.mem_map_of_mem key hmem)
        rw [List.find?_cons_of_neg _ (by simp [hne])]
        exact ih hnd.2 hmem

theorem findProgram_mapProgram (db : Db) (pid : Nat) (f : ProgramRow → ProgramRow)
    (hf : ∀ p, (f p).programId = p.programId) :
    findProgram (mapProgram db pid f) pid = (findProgram db pid).map f := by
  unfold findProgram mapProgram
  exact find?_map_if_eq (fun p => p.programId) pid f
    (fun x hx => by simpa [hf x] using hx) db.programs

theorem findEnrollment_writeEnrollment (db : Db) (eid : Nat) (e' : EnrollmentRow)
    (he : e'.enrollmentId = eid) :
    findEnrollment (writeEnrollment db eid e') eid
      = (findEnrollment db eid).map (fun _ => e') := by
  unfold findEnrollment writeEnrollment
  exact find?_map_if_eq (fun x => x.enrollmentId) eid (fun _ => e') (fun x _ => he)
    db.enrollments

theorem postSaveEnrollment_not_created (db : Db) (e : EnrollmentRow) :
    postSaveEnrollment db e false = db := by
  simp [postSaveEnrollment]

theorem findProgram_writeEnrollment (db : Db) (eid : Nat) (e : EnrollmentRow) (pid : Nat) :
    findProgram (writeEnrollment db eid e) pid = findProgram db pid := rfl

theorem buddies_writeEnrollment (db : Db) (eid : Nat) (e : EnrollmentRow) :
    (writeEnrollment db eid e).buddies = db.buddies := rfl

theorem buddies_mapProgram (db : Db) (pid : Nat) (f : ProgramRow → ProgramRow) :
    (mapProgram db pid f).buddies = db.buddies := rfl

theorem findEnrollment_mapProgram (db : Db) (pid : Nat) (f : ProgramRow → ProgramRow)
    (eid : Nat) : findEnrollment (mapProgram db pid f) eid = findEnrollment db eid := rfl

theorem toNat_max_zero_sub_one (n : Nat) : (max 0 ((n : Int) - 1)).toNat = n - 1 := by
  omega

/-- Claim C7: in a staff status update, a transition from a non-approved status
into `approved` raises the program counter by exactly 1; a transition from
`approved` to any other status lowers it by exactly 1, floored at 0 (`Nat`
subtraction); and re-applying the previous status (including
approved → approved) leaves the counter unchanged — the decision being made
purely by comparing previous vs. new status. -/
theorem counter_update_determined_by_status_comparison
    (db : Db) (actor : UserRow) (eid : Nat) (str : String)
    (e : EnrollmentRow) (p : ProgramRow) (ns : EStatus)
    (hrole : actor.role = .manager)
    (he : findEnrollment db eid = some e)
    (hs : parseStatus str = some ns)
    (hp : findProgram db e.programId = some p) :
    (¬ e.status = .approved → ns = .approved →
       findProgram (ajax_update_enrollment_status db actor eid str).1 e.programId
         = some { p with enrolled := p.enrolled + 1 })
    ∧ (e.status = .approved → ¬ ns = .approved →
       findProgram (ajax_update_enrollment_status db actor eid str).1 e.programId
         = some { p with enrolled := p.enrolled - 1 })
    ∧ (ns = e.status →
       findProgram (ajax_update_enrollment_status db actor eid str).1 e.programId
         = some p) := by
  unfold ajax_update_enrollment_status
  rw [if_neg (by simp [hrole]), he, hs]
  dsimp only
  refine ⟨?_, ?_, ?_⟩
  · intro hold hnew
    rw [if_pos ⟨hold, hnew⟩, findProgram_mapProgram, findProgram_writeEnrollment, hp]
    · rfl
    · intro q; rfl
  · intro hold hnew
    rw [if_neg (by simp [hold]), if_pos ⟨hold, hnew⟩, findProgram_mapProgram,
      findProgram_writeEnrollment, hp]
    · simp [toNat_max_zero_sub_one]
    · intro q; rfl
  · intro hsame
    rw [if_neg ?c1, if_neg ?c2, findProgram_writeEnrollment, hp]
    case c1 => rintro ⟨h1, h2⟩; exact h1 (hsame.symm.trans h2)
    case c2 => rintro ⟨h1, h2⟩; exact h2 (hsame.trans h1)

/-- Witness for `counter_update_determined_by_status_comparison` at the
concrete withdrawn-enrollment state. -/
theorem counter_update_determined_by_status_comparison_witness :
    findProgram (ajax_update_enrollment_status dbWithdrawn mgrUser 10 "approved").1 5
      = some ⟨5, 10, false, 1⟩ :=
  ((counter_update_determined_by_status_comparison dbWithdrawn mgrUser 10 "approved"
      ⟨10, 2, 5, .withdrawn, none, none⟩ ⟨5, 10, false, 0⟩ .approved
      rfl (by decide) rfl (by decide)).1 (by decide) rfl)

/-- Claim C10: deleting an Enrollment row fires `lower_enrollment_on_delete`,
which decrements the program counter by exactly 1 whenever it is positive
and leaves it at 0 otherwise — regardless of the status of the deleted row. -/
theorem delete_enrollment_decrements_counter_clamped
    (db : Db) (eid : Nat) (e : EnrollmentRow) (p : ProgramRow)
    (he : findEnrollment db eid = some e)
    (hp : findProgram db e.programId = some p) :
    (0 < p.enrolled →
       findProgram (deleteEnrollmentRow db eid) e.programId
         = some { p with enrolled := p.enrolled - 1 })
    ∧ (p.enrolled = 0 →
       findProgram (deleteEnrollmentRow db eid) e.programId = some p) := by
  unfold deleteEnrollmentRow
  rw [he]
  unfold postDeleteEnrollment lowerEnrolledIfPos
  have hfp :
      findProgram { db with enrollments := db.enrollments.filter (fun x => ¬ x.enrollmentId = eid) } e.programId
        = findProgram db e.programId := rfl
  constructor
  · intro hpos
    rw [findProgram_mapProgram, hfp, hp]
    · simp [hpos]
    · intro q; by_cases hq : 0 < q.enrolled <;> simp [hq]
  · intro hzero
    rw [findProgram_mapProgram, hfp, hp]
    · simp [hzero]
    · intro q; by_cases hq : 0 < q.enrolled <;> simp [hq]

/-- Witness for `delete_enrollment_decrements_counter_clamped` at the
concrete waitlisted-enrollment state with counter 0. -/
theorem delete_enrollment_decrements_counter_clamped_witness :
    findProgram (deleteEnrollmentRow dbDeleteZero 10) 5 = some ⟨5, 10, false, 0⟩ :=
  ((delete_enrollment_decrements_counter_clamped dbDeleteZero 10
      ⟨10, 3, 5, .waitlisted, none, none⟩ ⟨5, 10, false, 0⟩ (by decide) (by decide)).2 rfl)

/-- Claim C9: confirming a checkout for a program where the user already holds an
Enrollment overwrites that row to `pending` with the new rank — even when it
was `approved` (no hypothesis restricts the old status) — and leaves the
program table, hence the `enrolled` counter, unchanged: the `post_save`
signal only increments for freshly created approved rows. -/
theorem checkout_overwrites_existing_enrollment_keeps_counter
    (db : Db) (uid freshId : Nat) (s : Selection) (p : ProgramRow) (e : EnrollmentRow)
    (hnd : (db.enrollments.map (fun x => x.enrollmentId)).Nodup)
    (hp : findActiveProgram db s.programId = some p)
    (he : findEnrollmentFor db uid p.programId = some e) :
    (processSelections db uid freshId [s]).2 = .ok 1
    ∧ (processSelections db uid freshId [s]).1.programs = db.programs
    ∧ findEnrollment (processSelections db uid freshId [s]).1 e.enrollmentId
        = some { e with status := .pending, preferenceOrder := some s.rank } := by
  have hmem : e ∈ db.enrollments := List.mem_of_find?_eq_some he
  have hefind : findEnrollment db e.enrollmentId = some e := by
    unfold findEnrollment
    exact find?_key_of_mem_nodup (fun x => x.enrollmentId) db.enrollments e hnd hmem
  have hrec : ∀ (d : Db) (n m : Nat), processSelections d n m [] = (d, .ok 0) :=
    fun d n m => rfl
  unfold processSelections updateOrCreateEnrollment
  rw [hp]
  dsimp only
  rw [he]
  dsimp only
  rw [postSaveEnrollment_not_created, hrec]
  refine ⟨rfl, rfl, ?_⟩
  rw [findEnrollment_writeEnrollment db e.enrollmentId
      { e with status := .pending, preferenceOrder := some s.rank } rfl, hefind]
  rfl

/-- Witness for `checkout_overwrites_existing_enrollment_keeps_counter` at
the approved re-checkout state. -/
theorem checkout_overwrites_existing_enrollment_keeps_counter_witness :
    (processSelections dbRecheckout 3 100 [⟨5, 2⟩]).1.programs = dbRecheckout.programs :=
  (checkout_overwrites_existing_enrollment_keeps_counter dbRecheckout 3 100 ⟨5, 2⟩
      ⟨5, 10, false, 1⟩ ⟨10, 3, 5, .approved, some 1, none⟩
      (by decide) (by decide) (by decide)).2.1

/-- Claim C6 (amended): staff status updates never write to the BuddyAssignment
table — in particular, withdrawing the approved Enrollment of a volunteer leaves
every BuddyAssignment referencing that volunteer in place. -/
theorem status_transitions_never_touch_buddy_assignments
    (db : Db) (actor : UserRow) (eid : Nat) (str : String) :
    (ajax_update_enrollment_status db actor eid str).1.buddies = db.buddies := by
  unfold ajax_update_enrollment_status
  split
  · rfl
  · split
    · rfl
    · split
      · rfl
      · dsimp only
        split
        · rfl
        · split <;> rfl

/-- Claim C3 (amended): the staff status-update endpoint validates only that the
requested status string is one of the five valid statuses.  An unknown
string is rejected with a validation error and the state is unchanged; any
valid status — including ones outside the spec's transition graph, such as
`approved` requested on a withdrawn enrollment — is accepted from any
previous status and written to the row. -/
theorem status_update_checks_only_status_validity
    (db : Db) (actor : UserRow) (eid : Nat) (str : String) (e : EnrollmentRow)
    (hrole : actor.role = .manager)
    (he : findEnrollment db eid = some e)
    (heid : e.enrollmentId = eid) :
    (parseStatus str = none →
       ajax_update_enrollment_status db actor eid str = (db, .error "Invalid status"))
    ∧ (∀ ns, parseStatus str = some ns →
       (ajax_update_enrollment_status db actor eid str).2 = .ok str
       ∧ findEnrollment (ajax_update_enrollment_status db actor eid str).1 eid
           = some { e with status := ns, assignedBy := some actor.id }) := by
  constructor
  · intro hnone
    unfold ajax_update_enrollment_status
    rw [if_neg (by simp [hrole]), he, hnone]
  · intro ns hsome
    unfold ajax_update_enrollment_status
    rw [if_neg (by simp [hrole]), he, hsome]
    dsimp only
    constructor
    · rfl
    · have hw : findEnrollment (writeEnrollment db eid { e with status := ns, assignedBy := some actor.id }) eid
          = some { e with status := ns, assignedBy := some actor.id } := by
        rw [findEnrollment_writeEnrollment db eid
            { e with status := ns, assignedBy := some actor.id } heid, he]
        rfl
      split
      · rw [findEnrollment_mapProgram]; exact hw
      · split
        · rw [findEnrollment_mapProgram]; exact hw
        · exact hw

/-- Witness for `status_update_checks_only_status_validity` at the
withdrawn-enrollment state: the graph-violating request
withdrawn → approved succeeds. -/
theorem status_update_checks_only_status_validity_witness :
    (ajax_update_enrollment_status dbWithdrawn mgrUser 10 "approved").2 = .ok "approved" :=
  ((status_update_checks_only_status_validity dbWithdrawn mgrUser 10 "approved"
      ⟨10, 2, 5, .withdrawn, none, none⟩ rfl (by decide) rfl).2 .approved (by decide)).1

/-- Claim C8 (modelled from the spec, section 4.1): with the enrollment toggle
open, a user whose role has no RoleRequirement row — or only an inactive
one — is allowed with an empty list of missing items. -/
theorem eligibility_allows_when_no_active_role_requirement
    (settings : EnrollmentSettingsRec) (reqs : List RoleRequirementRow) (u : EligibilityInput)
    (hopen : settings.enrollmentOpen = true)
    (hreq : reqs.find? (fun r => r.role = u.role) = none
        ∨ ∃ r, reqs.find? (fun r => r.role = u.role) = some r ∧ r.active = false) :
    eligibilityEvaluate settings reqs u = (true, []) := by
  unfold eligibilityEvaluate
  rw [if_neg (by simp [hopen])]
  rcases hreq with h | ⟨r, hr, hact⟩
  · rw [h]
  · rw [hr]
    dsimp only
    rw [if_pos hact]

/-- Witness for `eligibility_allows_when_no_active_role_requirement` with
no requirement rows at all. -/
theorem eligibility_allows_when_no_active_role_requirement_witness :
    eligibilityEvaluate ⟨true, none⟩ [] ⟨.member, false, []⟩ = (true, []) :=
  eligibility_allows_when_no_active_role_requirement ⟨true, none⟩ [] ⟨.member, false, []⟩
    rfl (Or.inl rfl)

/-- Claim C5 (amended): the AJAX buddy endpoint does enforce the validation — a
non-member target or a volunteer without an approved enrollment in the
program is rejected with a validation error and no row is written, and a
valid request creates or replaces the unique (program, member) mapping.
(The `all_members_view` assign-buddy action enforces neither check; see its
counterexample.) -/
theorem ajax_buddy_assignment_validates_member_and_volunteer
    (db : Db) (actor : UserRow) (eid vid : Nat)
    (e : EnrollmentRow) (m v : UserRow)
    (hrole : actor.role = .manager)
    (he : findEnrollment db eid = some e)
    (hm : findUser db e.userId = some m)
    (hv : findUser db vid = some v) :
    (¬ m.role = .member →
       ajax_update_buddy_assignment db actor eid (some vid)
         = (db, .error "Buddy assignments are only for members"))
    ∧ (m.role = .member → hasApprovedEnrollment db v.id e.programId = false →
       ajax_update_buddy_assignment db actor eid (some vid)
         = (db, .error "Selected volunteer is not enrolled in this program"))
    ∧ (m.role = .member → hasApprovedEnrollment db v.id e.programId = true →
       ajax_update_buddy_assignment db actor eid (some vid)
         = (upsertBuddy db e.programId m.id v.id, .ok "Buddy assignment updated")) := by
  unfold ajax_update_buddy_assignment
  rw [if_neg (by simp [hrole]), he]
  dsimp only
  rw [hm]
  dsimp only
  refine ⟨?_, ?_, ?_⟩
  · intro hnm
    rw [if_pos hnm]
  · intro hmem happ
    rw [if_neg (by simp [hmem])]
    rw [hv]
    dsimp only
    rw [if_neg (by simp [happ])]
  · intro hmem happ
    rw [if_neg (by simp [hmem])]
    rw [hv]
    dsimp only
    rw [if_pos happ]

/-- Witness for `ajax_buddy_assignment_validates_member_and_volunteer` at
the pending-volunteer state: the conjunction instantiated where the
volunteer check fails. -/
theorem ajax_buddy_assignment_validates_member_and_volunteer_witness :
    ajax_update_buddy_assignment dbBuddyPending mgrUser 10 (some 2)
      = (dbBuddyPending, .error "Selected volunteer is not enrolled in this program") :=
  ((ajax_buddy_assignment_validates_member_and_volunteer dbBuddyPending mgrUser 10 2
      ⟨10, 3, 5, .pending, none, none⟩ ⟨3, .member⟩ ⟨2, .volunteer⟩
      rfl (by decide) (by decide) (by decide)).2.1 rfl (by decide))

theorem runSched_nil_nil (c r1 r2 : Nat) (s : List Bool) :
    runSched c r1 r2 [] [] s = (c, r1, r2, [], []) := by
  induction s with
  | nil => rfl
  | cons b rest ih => by_cases hb : b <;> simp [runSched, hb, ih]

theorem runSched_incr_pending_right (c r1 r2 : Nat) (s : List Bool)
    (h : (runSched c r1 r2 [] [CounterOp.dbIncr] s).2.2.2 = ([], [])) :
    (runSched c r1 r2 [] [CounterOp.dbIncr] s).1 = c + 1 := by
  induction s generalizing c r1 r2 with
  | nil => simp [runSched] at h
  | cons b rest ih =>
      by_cases hb : b
      · simp only [runSched, hb, if_true] at h ⊢
        exact ih c r1 r2 h
      · simp [runSched, hb, CounterOp.exec, runSched_nil_nil] at h ⊢

theorem runSched_incr_pending_left (c r1 r2 : Nat) (s : List Bool)
    (h : (runSched c r1 r2 [CounterOp.dbIncr] [] s).2.2.2 = ([], [])) :
    (runSched c r1 r2 [CounterOp.dbIncr] [] s).1 = c + 1 := by
  induction s generalizing c r1 r2 with
  | nil => simp [runSched] at h
  | cons b rest ih =>
      by_cases hb : b
      · simp [runSched, hb, CounterOp.exec, runSched_nil_nil] at h ⊢
      · simp only [runSched, hb, if_false] at h ⊢
        exact ih c r1 r2 h

theorem runSched_incr_incr (c r1 r2 : Nat) (s : List Bool)
    (h : (runSched c r1 r2 [CounterOp.dbIncr] [CounterOp.dbIncr] s).2.2.2 = ([], [])) :
    (runSched c r1 r2 [CounterOp.dbIncr] [CounterOp.dbIncr] s).1 = c + 2 := by
  induction s generalizing c r1 r2 with
  | nil => simp [runSched] at h
  | cons b rest ih =>
      by_cases hb : b
      · simp only [runSched, hb, if_true, CounterOp.exec] at h ⊢
        have h2 := runSched_incr_pending_right (c + 1) r1 r2 rest (by simpa using h)
        simpa using h2
      · simp only [runSched, hb, if_false, CounterOp.exec] at h ⊢
        have h2 := runSched_incr_pending_left (c + 1) r1 r2 rest (by simpa using h)
        simpa using h2

/-- Claim C4 (amended): the counter updates issued by the enrollment signals are
single atomic persistence-layer increments — every complete interleaving of
two concurrent creation bumps adds exactly 2 — whereas the counter update
issued by a staff transition into `approved` is the two-step read-then-write
sequence fetch-then-save, and some complete interleaving of two such
approvals on the same program loses an update, ending at 1 instead of 2. -/
theorem signal_counter_updates_atomic_transition_updates_not :
    (∀ (c : Nat) (s : List Bool), completes c createSignalOps createSignalOps s →
        finalCounter c createSignalOps createSignalOps s = c + 2)
    ∧ transitionIncrOps = [CounterOp.readCounter, CounterOp.writeReadPlusOne]
    ∧ (∃ s : List Bool, completes 0 transitionIncrOps transitionIncrOps s ∧
        finalCounter 0 transitionIncrOps transitionIncrOps s = 1) := by
  refine ⟨?_, rfl, ⟨[true, false, true, false], by decide, by decide⟩⟩
  intro c s h
  exact runSched_incr_incr c 0 0 s h

/-- Witness for `signal_counter_updates_atomic_transition_updates_not`:
its universally quantified part applied to the concrete complete schedule
thread-2-then-thread-1 starting from counter 7. -/
theorem signal_counter_updates_atomic_transition_updates_not_witness :
    finalCounter 7 createSignalOps createSignalOps [false, true] = 7 + 2 :=
  signal_counter_updates_atomic_transition_updates_not.1 7 [false, true] (by decide)

theorem filter_active_length_ne (programs : List ProgramRow) (ids : List Nat) (bad : Nat)
    (hnd : (programs.map (fun p => p.programId)).Nodup)
    (hbadmem : bad ∈ ids)
    (hforall : ∀ p ∈ programs, ¬ (p.programId = bad ∧ p.archived = false)) :
    (programs.filter (fun p => p.programId ∈ ids ∧ p.archived = false)).length ≠ ids.length := by
  have hsub : (programs.filter (fun p => p.programId ∈ ids ∧ p.archived = false)).Sublist
      programs := List.filter_sublist _
  have hsubm :
      ((programs.filter (fun p => p.programId ∈ ids ∧ p.archived = false)).map
        (fun p => p.programId)).Sublist (programs.map (fun p => p.programId)) :=
    hsub.map _
  have hnodup :
      ((programs.filter (fun p => p.programId ∈ ids ∧ p.archived = false)).map
        (fun p => p.programId)).Nodup := List.Nodup.sublist hsubm hnd
  have hmem2 : ∀ a ∈ (programs.filter (fun p => p.programId ∈ ids ∧ p.archived = false)).map
      (fun p => p.programId), a ∈ ids.filter (fun i => ¬ i = bad) := by
    intro a hain
    rcases List.mem_map.mp hain with ⟨p, hpav, rfl⟩
    have hp := List.mem_filter.mp hpav
    have hprop : p.programId ∈ ids ∧ p.archived = false := by simpa using hp.2
    refine List.mem_filter.mpr ⟨hprop.1, ?_⟩
    simp only [decide_eq_true_eq]
    intro hcontra
    exact hforall p hp.1 ⟨hcontra, hprop.2⟩
  have hlen1 : ((programs.filter (fun p => p.programId ∈ ids ∧ p.archived = false)).map
      (fun p => p.programId)).length ≤ (ids.filter (fun i => ¬ i = bad)).length := by
    have hfin : ((programs.filter (fun p => p.programId ∈ ids ∧ p.archived = false)).map
        (fun p => p.programId)).toFinset ⊆ (ids.filter (fun i => ¬ i = bad)).toFinset := by
      intro a ha2
      rw [List.mem_toFinset] at ha2 ⊢
      exact hmem2 a ha2
    calc ((programs.filter (fun p => p.programId ∈ ids ∧ p.archived = false)).map
          (fun p => p.programId)).length
        = ((programs.filter (fun p => p.programId ∈ ids ∧ p.archived = false)).map
          (fun p => p.programId)).toFinset.card := (List.toFinset_card_of_nodup hnodup).symm
      _ ≤ (ids.filter (fun i => ¬ i = bad)).toFinset.card := Finset.card_le_card hfin
      _ ≤ (ids.filter (fun i => ¬ i = bad)).length := List.toFinset_card_le _
  have hsplit :=
    @List.length_eq_length_filter_add Nat ids (fun i => decide (¬ i = bad))
  have hbadfilter : bad ∈ ids.filter (fun i => !(fun j => decide (¬ j = bad)) i) :=
    List.mem_filter.mpr ⟨hbadmem, by simp⟩
  have hpos : 0 < (ids.filter (fun i => !(fun j => decide (¬ j = bad)) i)).length :=
    List.length_pos_of_mem hbadfilter
  have hlen2 : (ids.filter (fun i => ¬ i = bad)).length < ids.length := by
    rw [hsplit]
    exact Nat.lt_add_of_pos_right hpos
  have hmaplen : ((programs.filter (fun p => p.programId ∈ ids ∧ p.archived = false)).map
      (fun p => p.programId)).length
      = (programs.filter (fun p => p.programId ∈ ids ∧ p.archived = false)).length :=
    List.length_map _ _
  rw [← hmaplen]
  exact Nat.ne_of_lt (lt_of_le_of_lt hlen1 hlen2)

/-- Claim C2 (amended): in the volunteer confirmation path, if any program of the
selection has become archived or been removed since selection, the entire
batch is rejected — with the generic message (no program is named) — and the
state is returned unchanged, so zero Enrollment rows are created.  (The
paid `process_enrollment` path has no such pre-validation; see its
counterexample.) -/
theorem volunteer_confirm_rejects_batch_unchanged
    (db : Db) (uid freshId : Nat) (sels : List Selection) (s : Selection)
    (hnd : (db.programs.map (fun p => p.programId)).Nodup)
    (hmem : s ∈ sels)
    (hbad : findActiveProgram db s.programId = none) :
    volunteer_selection_confirm db uid freshId sels
      = (db, .error "Some selected programs are no longer available.") := by
  have hne : ¬ sels = [] := List.ne_nil_of_mem hmem
  have hforall : ∀ p ∈ db.programs, ¬ (p.programId = s.programId ∧ p.archived = false) := by
    intro p hp hcontra
    have := List.find?_eq_none.mp hbad p hp
    simp only [decide_eq_true_eq] at this
    exact this hcontra
  unfold volunteer_selection_confirm
  rw [if_neg hne]
  dsimp only
  rw [if_pos (filter_active_length_ne db.programs (sels.map (fun x => x.programId))
      s.programId hnd (List.mem_map_of_mem _ hmem) hforall)]

/-- Witness for `volunteer_confirm_rejects_batch_unchanged` at the
checkout state whose second selected program is archived. -/
theorem volunteer_confirm_rejects_batch_unchanged_witness :
    volunteer_selection_confirm dbCheckout 3 100 [⟨1, 1⟩, ⟨2, 2⟩]
      = (dbCheckout, .error "Some selected programs are no longer available.") :=
  volunteer_confirm_rejects_batch_unchanged dbCheckout 3 100 [⟨1, 1⟩, ⟨2, 2⟩] ⟨2, 2⟩
    (by decide) (by decide) (by decide)

/-- Claim C1 (failing input): program 5 reaches `enrolled = 1` with one approved
enrollment through checkout and staff approval; a second, still-pending
enrollment is then deleted, and the `post_delete` signal decrements the
counter although the deleted row was never approved — leaving `enrolled = 0`
while the approved count is 1, violating the ledger invariant. -/
theorem enrolled_counter_drifts_from_approved_count :
    (findProgram dbDrift4 5).map (fun p => p.enrolled) = some 0
    ∧ approvedCount dbDrift4 5 = 1 := by decide

/-- Claim C2 (counterexample): confirming the paid checkout of
[program 1 (rank 1), program 2 (rank 2)] after program 2 was archived fails
with the generic 404 message — which names no program — yet the Enrollment
row for program 1 has already been created and persists, so the batch is
not all-or-nothing. -/
theorem paid_checkout_partial_enrollment_on_archived_program :
    (process_enrollment dbCheckout 3 100 [⟨1, 1⟩, ⟨2, 2⟩]).2
        = .error "No Program matches the given query."
    ∧ findEnrollmentFor (process_enrollment dbCheckout 3 100 [⟨1, 1⟩, ⟨2, 2⟩]).1 3 1
        = some ⟨100, 3, 1, .pending, some 1, none⟩ := by decide

/-- Claim C3 (counterexample): requesting `approved` on a withdrawn enrollment —
a transition outside the spec's allowed graph — succeeds: the row becomes
approved and the program counter is incremented, instead of the request
being rejected with everything unchanged. -/
theorem withdrawn_to_approved_transition_accepted :
    (ajax_update_enrollment_status dbWithdrawn mgrUser 10 "approved").2 = .ok "approved"
    ∧ (findEnrollment (ajax_update_enrollment_status dbWithdrawn mgrUser 10 "approved").1
        10).map (fun e => e.status) = some .approved
    ∧ findProgram (ajax_update_enrollment_status dbWithdrawn mgrUser 10 "approved").1 5
        = some ⟨5, 10, false, 1⟩ := by decide

/-- Claim C4 (counterexample): the counter update issued by a staff transition
into `approved` is the read-then-write pair fetch/save, not a single atomic
arithmetic update, and the complete interleaving read-read-write-write of
two such approvals starting from counter 0 ends at 1 — one update lost. -/
theorem transition_counter_update_read_then_write_loses_update :
    transitionIncrOps = [CounterOp.readCounter, CounterOp.writeReadPlusOne]
    ∧ completes 0 transitionIncrOps transitionIncrOps [true, false, true, false]
    ∧ finalCounter 0 transitionIncrOps transitionIncrOps [true, false, true, false] = 1 :=
  ⟨rfl, by decide, by decide⟩

/-- Claim C5 (counterexample): the `all_members_view` assign-buddy action writes
a BuddyAssignment for volunteer 2 although volunteer 2 holds no approved
enrollment in program 5 (only a pending one) — no validation error, and the
row is created. -/
theorem all_members_assign_buddy_skips_validation :
    hasApprovedEnrollment dbBuddyPending 2 5 = false
    ∧ (all_members_assign_buddy dbBuddyPending mgrUser 10 (some 2)).1.buddies = [⟨5, 3, 2⟩]
    ∧ (all_members_assign_buddy dbBuddyPending mgrUser 10 (some 2)).2 = .ok "Assigned buddy" := by
  decide

/-- Claim C6 (counterexample): withdrawing the approved enrollment of volunteer 2 in
program 5 while the buddy row (program 5, member 3) → volunteer 2 exists
leaves that BuddyAssignment in place, producing a reachable state whose
assignment references a volunteer with no approved enrollment. -/
theorem buddy_assignment_dangles_after_volunteer_withdrawal :
    (ajax_update_enrollment_status dbBuddy mgrUser 10 "withdrawn").2 = .ok "withdrawn"
    ∧ (ajax_update_enrollment_status dbBuddy mgrUser 10 "withdrawn").1.buddies = [⟨5, 3, 2⟩]
    ∧ hasApprovedEnrollment (ajax_update_enrollment_status dbBuddy mgrUser 10 "withdrawn").1 2 5
        = false := by decide

end IWPortal
